import Mathlib

/-!
Verification of the streaming transcription fan-out pipeline.

The definitions below are a shallow embedding of the TypeScript worker: pure
slicing and classification code becomes Lean functions on lists; the bounded
retry loops become structural recursions over the remaining loop iterations,
parameterised by an oracle giving the outcome of each remote call; the observable
effects (calls made, waits inserted, logs emitted, deliveries published) are
collected in trace records.
-/

set_option linter.unusedVariables false

namespace Transcriber

/-- Hard limit from Amazon Transcribe (`const MAX_CHUNK_SIZE = 32_000`). -/
def MAX_CHUNK_SIZE : Nat := 32000

/-- One run of the slicing loop inside `audioStreamGenerator` starting at
`offset`: while `offset < chunk.length`, compute
`end = Math.min(offset + MAX_CHUNK_SIZE, chunk.length)`, yield
`chunk.slice(offset, end)` and continue from `end`. -/
def sliceFrom (chunk : List Nat) (offset : Nat) : List (List Nat) :=
  if h : offset < chunk.length then
    ((chunk.drop offset).take (min (offset + MAX_CHUNK_SIZE) chunk.length - offset)) ::
      sliceFrom chunk (min (offset + MAX_CHUNK_SIZE) chunk.length)
  else
    []
termination_by chunk.length - offset
decreasing_by
  simp only [MAX_CHUNK_SIZE] at *
  omega

/-- `audioStreamGenerator`: `for await (const chunk of audioStream)` feeds each
source read through the slicing loop, yielding the pieces in order. -/
def audioStreamGenerator (reads : List (List Nat)) : List (List Nat) :=
  reads.flatMap (fun chunk => sliceFrom chunk 0)

/-- The fields of an AWS Transcribe `Result` this program reads. In the SDK all
of them are optional; `isPartial` is modelled as a plain flag (an absent
`IsPartial` behaves like `false` under the `!firstResult.IsPartial` checks).
Each alternative is collapsed to its optional `Transcript` string. -/
structure TResult where
  resultId : Option String
  isPartial : Bool
  startTime : Option Nat
  endTime : Option Nat
  alternatives : Option (List (Option String))
deriving Repr, DecidableEq

/-- A transcript event as consumed by the main loop, with
`event.TranscriptEvent?.Transcript?.Results` collapsed to an optional list. -/
structure TEvent where
  results : Option (List TResult)
deriving Repr, DecidableEq

/-- The classification step of the main event loop: the guard
`results && results.length > 0 && results[0].Alternatives &&
results[0].Alternatives.length > 0`, then `firstAlternative.Transcript` with the
truthiness check `if (transcript)` (missing and empty text are both dropped).
Produces the first result together with its text, or nothing. -/
def classify (event : TEvent) : Option (TResult × String) :=
  match event.results with
  | none => none
  | some [] => none
  | some (firstResult :: _) =>
    match firstResult.alternatives with
    | none => none
    | some [] => none
    | some (firstAlternative :: _) =>
      match firstAlternative with
      | none => none
      | some transcript => if transcript = "" then none else some (firstResult, transcript)

/-- Observable behaviour of one bounded-retry publish loop: how many calls were
made, the waits (in ms) inserted between calls, whether some call succeeded, how
many `console.error` lines were emitted, and whether the final `Giving up after 3
attempts.` log fired. -/
structure RetryTrace where
  calls : Nat
  waits : List Nat
  delivered : Bool
  errorLogs : Nat
  gaveUp : Bool
deriving Repr, DecidableEq

/-- The retry loop of `sendTranscriptEvent` around `ivsChatClient.send(command)`.
`attempts` is the loop counter of the source and `remaining` the number of loop
iterations still permitted (`maxAttempts - attempts`); `sendOk k` says whether
the k-th call (0-based) succeeds. A successful call returns at once. A failed
call increments the counter and logs one error; if the counter reached
`maxAttempts` one further `Giving up` error is logged and the loop exits,
otherwise the loop sleeps `500 * 2 ** attempts` ms (with the incremented
counter) and tries again. -/
def chatSendLoop (sendOk : Nat → Bool) (attempts : Nat) : Nat → RetryTrace
  | 0 => { calls := 0, waits := [], delivered := false, errorLogs := 0, gaveUp := false }
  | remaining + 1 =>
    if sendOk attempts then
      { calls := 1, waits := [], delivered := true, errorLogs := 0, gaveUp := false }
    else if remaining = 0 then
      { calls := 1, waits := [], delivered := false, errorLogs := 2, gaveUp := true }
    else
      let rest := chatSendLoop sendOk (attempts + 1) remaining
      { calls := 1 + rest.calls
        waits := 500 * 2 ^ (attempts + 1) :: rest.waits
        delivered := rest.delivered
        errorLogs := 1 + rest.errorLogs
        gaveUp := rest.gaveUp }

/-- The chat publish of `sendTranscriptEvent`: `attempts` starts at 0 and
`maxAttempts = 3`. -/
def sendChatWithRetry (sendOk : Nat → Bool) : RetryTrace :=
  chatSendLoop sendOk 0 3

/-- `msg.includes("ChannelNotBroadcasting")` over the character list. -/
def containsCNB : List Char → Bool
  | [] => false
  | c :: rest => "ChannelNotBroadcasting".data.isPrefixOf (c :: rest) || containsCNB rest

/-- `isChannelNotBroadcastingError`, applied to the code/message string the
source extracts from the thrown value: true when the string mentions
`ChannelNotBroadcasting`. -/
def isChannelNotBroadcastingError (msg : String) : Bool :=
  containsCNB msg.data

/-- Outcome of one `ivsClient.send(command)` call inside
`putTranscriptInMetadata`: success, or a thrown error carrying the message
examined by `isChannelNotBroadcastingError`. -/
inductive MetaOutcome where
  | ok : MetaOutcome
  | err (msg : String) : MetaOutcome
deriving Repr, DecidableEq

/-- Whether the call succeeded. -/
def MetaOutcome.isOk : MetaOutcome → Bool
  | .ok => true
  | .err _ => false

/-- Whether the call threw an error recognised by `isChannelNotBroadcastingError`. -/
def MetaOutcome.cnb : MetaOutcome → Bool
  | .ok => false
  | .err msg => isChannelNotBroadcastingError msg

/-- The retry loop of `putTranscriptInMetadata`: identical to the chat loop,
except that a caught error recognised by `isChannelNotBroadcastingError` makes
the function return immediately — before `attempts++`, before any
`console.error`, and without any further call. -/
def putMetadataLoop (outcome : Nat → MetaOutcome) (attempts : Nat) : Nat → RetryTrace
  | 0 => { calls := 0, waits := [], delivered := false, errorLogs := 0, gaveUp := false }
  | remaining + 1 =>
    match outcome attempts with
    | .ok => { calls := 1, waits := [], delivered := true, errorLogs := 0, gaveUp := false }
    | .err msg =>
      if isChannelNotBroadcastingError msg then
        { calls := 1, waits := [], delivered := false, errorLogs := 0, gaveUp := false }
      else if remaining = 0 then
        { calls := 1, waits := [], delivered := false, errorLogs := 2, gaveUp := true }
      else
        let rest := putMetadataLoop outcome (attempts + 1) remaining
        { calls := 1 + rest.calls
          waits := 500 * 2 ^ (attempts + 1) :: rest.waits
          delivered := rest.delivered
          errorLogs := 1 + rest.errorLogs
          gaveUp := rest.gaveUp }

/-- `putTranscriptInMetadata`'s loop with `attempts = 0`, `maxAttempts = 3`. -/
def putMetadataWithRetry (outcome : Nat → MetaOutcome) : RetryTrace :=
  putMetadataLoop outcome 0 3

/-- Network effect of one `saveTranscriptToDB` call. -/
structure PersistTrace where
  networkCalls : Nat
deriving Repr, DecidableEq

/-- `saveTranscriptToDB` of the queue-driven worker: its body is a bare
`return;` (the whole axios POST is commented out), so it performs no network
call for any input. -/
def saveTranscriptToDB (transcript languageCode : String) (domain : Option String)
    (livestreamID : String) (startTime endTime : Option Nat)
    (taskStartTime : Nat) : PersistTrace :=
  { networkCalls := 0 }

/-- Truthiness of `firstResult.ResultId` in JS: present and non-empty. -/
def resultIdPresent (r : TResult) : Bool :=
  match r.resultId with
  | none => false
  | some rid => rid != ""

/-- Observable behaviour of one `sendTranscriptEvent` call of the queue-driven
worker: whether the `Missing ResultId` error was logged, the trace of the
metadata-attach retry loop when it ran, whether `saveTranscriptToDB` was invoked
and how many network calls it performed, and the trace of the chat publish
retry loop when it ran. -/
structure SendEventTrace where
  loggedMissingResultId : Bool
  metadataTrace : Option RetryTrace
  persistInvoked : Bool
  persistNetworkCalls : Nat
  chatTrace : Option RetryTrace
deriving Repr, DecidableEq

/-- `sendTranscriptEvent` of the queue-driven worker: if `!firstResult.ResultId`
log and return without doing anything; otherwise, when `!firstResult.IsPartial`,
call `putTranscriptInMetadata` and `saveTranscriptToDB`; in either case run the
chat publish retry loop. -/
def sendTranscriptEvent (chatOk : Nat → Bool) (metaOutcome : Nat → MetaOutcome)
    (transcript languageCode : String) (domain : Option String) (livestreamID : String)
    (taskStartTime : Nat) (firstResult : TResult) : SendEventTrace :=
  if !resultIdPresent firstResult then
    { loggedMissingResultId := true
      metadataTrace := none
      persistInvoked := false
      persistNetworkCalls := 0
      chatTrace := none }
  else if !firstResult.isPartial then
    { loggedMissingResultId := false
      metadataTrace := some (putMetadataWithRetry metaOutcome)
      persistInvoked := true
      persistNetworkCalls :=
        (saveTranscriptToDB transcript languageCode domain livestreamID
          firstResult.startTime firstResult.endTime taskStartTime).networkCalls
      chatTrace := some (sendChatWithRetry chatOk) }
  else
    { loggedMissingResultId := false
      metadataTrace := none
      persistInvoked := false
      persistNetworkCalls := 0
      chatTrace := some (sendChatWithRetry chatOk) }

/-- `sendTranscriptEvent` of the env-driven variant (`src/src/index.ts`): if
`!firstResult.ResultId` log `Missing ResultId` and return; otherwise run only
the chat publish retry loop. In this variant the function contains no
metadata-attach and no persistence. The first component records whether the
missing-id error was logged; the second the chat retry trace, when it ran. -/
def sendTranscriptEventEnv (chatOk : Nat → Bool) (firstResult : TResult) :
    Bool × Option RetryTrace :=
  if !resultIdPresent firstResult then
    (true, none)
  else
    (false, some (sendChatWithRetry chatOk))

/-- Observable behaviour of the env-driven main loop's direct delivery block for
one classified result. -/
structure EnvMainTrace where
  loggedMissingResultId : Bool
  chatTrace : Option RetryTrace
  persistAttempted : Bool
deriving Repr, DecidableEq

/-- The source-language delivery block of the env-driven `main`
(`src/src/index.ts`): call `sendTranscriptEvent`, then — gated only on
`!firstResult.IsPartial`, with no `ResultId` check — call `saveTranscriptToDB`,
which in this variant performs a real axios POST to the storage endpoint. (The
translation path of this variant persists per target under the same
`!IsPartial`-only gate.) -/
def envMainDelivery (chatOk : Nat → Bool) (firstResult : TResult) : EnvMainTrace :=
  let sent := sendTranscriptEventEnv chatOk firstResult
  { loggedMissingResultId := sent.1
    chatTrace := sent.2
    persistAttempted := !firstResult.isPartial }

/-- Outcome of one `translateClient.send(command)` call: a response whose
`TranslatedText` is the given optional string, or a thrown error. -/
inductive TranslateResult where
  | ok (translatedText : Option String) : TranslateResult
  | err : TranslateResult
deriving Repr, DecidableEq

/-- Whether the translate call threw. -/
def TranslateResult.isErr : TranslateResult → Bool
  | .err => true
  | .ok _ => false

/-- `handleTranslation`'s text selection: `translatedText` starts as the source
transcript; on success it becomes `response.TranslatedText || transcript`
(an undefined or empty `TranslatedText` falls back to the transcript); on a
thrown error it stays the source transcript. -/
def translatedTextOf (outcome : TranslateResult) (transcript : String) : String :=
  match outcome with
  | .ok (some s) => if s = "" then transcript else s
  | .ok none => transcript
  | .err => transcript

/-- Observable behaviour of the per-result fanout: the `sendTranscriptEvent`
invocations as (languageCode, transcript) pairs, the target languages for which
a `TranslateTextCommand` was sent, and the targets whose translate call threw
and was logged by `console.error("Error translating text:", ...)`. -/
structure FanoutTrace where
  deliveries : List (String × String)
  translateCalls : List String
  translationErrorsLogged : List String
deriving Repr, DecidableEq

/-- The per-result fanout of the worker's main loop: one direct
`sendTranscriptEvent` in the source language; then, when
`toLangs.some((lang) => lang !== fromLang)` (which is also exactly when the
translate client was constructed), one `handleTranslation` per target with
`fromLang !== toLang`, each sending a single `TranslateTextCommand` and
publishing the translated (or fallen-back) text for that target. -/
def mainFanout (outcome : String → TranslateResult) (fromLang : String)
    (toLangs : List String) (transcript : String) : FanoutTrace :=
  let needsTranslation := toLangs.any (fun lang => lang != fromLang)
  let targets :=
    if needsTranslation then toLangs.filter (fun toLang => fromLang != toLang) else []
  { deliveries :=
      (fromLang, transcript) ::
        targets.map (fun toLang => (toLang, translatedTextOf (outcome toLang) transcript))
    translateCalls := targets
    translationErrorsLogged := targets.filter (fun toLang => (outcome toLang).isErr) }

/-- The body of `for await (const event of ...TranscriptResultStream)`: classify
the event; if nothing usable was found, do nothing at all; otherwise run the
profanity filter (an opaque function) on the text and fan out. -/
def processEvent (outcome : String → TranslateResult) (clean : String → String)
    (fromLang : String) (toLangs : List String) (event : TEvent) : FanoutTrace :=
  match classify event with
  | none => { deliveries := [], translateCalls := [], translationErrorsLogged := [] }
  | some (_, transcript) => mainFanout outcome fromLang toLangs (clean transcript)

/-- The ways the per-message `try` body of the worker loop ends. -/
inductive BodyExit where
  | streamEnded
  | missingJobData
  | chatClientInitFail
  | ivsClientInitFail
  | transcribeClientInitFail
  | translateClientInitFail
  | criticalError
deriving Repr, DecidableEq

/-- Observable outcome of one worker-loop iteration for a received message. -/
structure MessageTrace where
  runStarted : Bool
  deleted : Bool
deriving Repr, DecidableEq

/-- One iteration of the SQS worker for a received message. `JSON.parse` runs
before `messageReceiptHandle = message.ReceiptHandle`, so a parse failure is
caught with no handle recorded and the `finally` block deletes nothing. Once the
handle is recorded, every way the `try` body ends — the natural end of the event
stream, the early `return`s on missing job data or on any client construction
failure, or the caught-and-returned critical error — still runs the `finally`
block, which sends `DeleteMessageCommand` exactly when a handle is present. -/
def handleQueueMessage (bodyParses : Bool) (receiptHandle : Option String)
    (exitKind : BodyExit) : MessageTrace :=
  if !bodyParses then
    { runStarted := false, deleted := false }
  else
    match exitKind with
    | .streamEnded => { runStarted := true, deleted := receiptHandle.isSome }
    | .missingJobData => { runStarted := true, deleted := receiptHandle.isSome }
    | .chatClientInitFail => { runStarted := true, deleted := receiptHandle.isSome }
    | .ivsClientInitFail => { runStarted := true, deleted := receiptHandle.isSome }
    | .transcribeClientInitFail => { runStarted := true, deleted := receiptHandle.isSome }
    | .translateClientInitFail => { runStarted := true, deleted := receiptHandle.isSome }
    | .criticalError => { runStarted := true, deleted := receiptHandle.isSome }

/-! ## Helper lemmas -/

/-- Concatenating the slices of one source read starting at `offset` reproduces
the read from `offset` on. -/
theorem sliceFrom_flatten (chunk : List Nat) (offset : Nat) :
    (sliceFrom chunk offset).flatten = chunk.drop offset := by
  induction offset using sliceFrom.induct chunk with
  | case1 offset h ih =>
      rw [sliceFrom, dif_pos h, List.flatten_cons, ih]
      have h1 : chunk.drop (min (offset + MAX_CHUNK_SIZE) chunk.length)
          = (chunk.drop offset).drop (min (offset + MAX_CHUNK_SIZE) chunk.length - offset) := by
        rw [List.drop_drop]
        congr 1
        simp only [MAX_CHUNK_SIZE]
        omega
      rw [h1, List.take_append_drop]
  | case2 offset h =>
      rw [sliceFrom, dif_neg h]
      simp only [List.flatten_nil]
      rw [eq_comm, List.drop_eq_nil_iff]
      omega

/-- Every slice of one source read is non-empty and at most `MAX_CHUNK_SIZE` long. -/
theorem sliceFrom_length_bounds (chunk : List Nat) (offset : Nat) :
    ∀ piece ∈ sliceFrom chunk offset, 0 < piece.length ∧ piece.length ≤ MAX_CHUNK_SIZE := by
  induction offset using sliceFrom.induct chunk with
  | case1 offset h ih =>
      intro piece hp
      rw [sliceFrom, dif_pos h] at hp
      rcases List.mem_cons.mp hp with hEq | hMem
      · subst hEq
        simp only [List.length_take, List.length_drop, MAX_CHUNK_SIZE] at *
        omega
      · exact ih piece hMem
  | case2 offset h =>
      intro piece hp
      rw [sliceFrom, dif_neg h] at hp
      simp at hp

/-- A 50,000-byte read is sliced into exactly a 32,000-byte piece followed by an
18,000-byte piece. -/
theorem sliceFrom_lengths_50000 (c : List Nat) (h : c.length = 50000) :
    (sliceFrom c 0).map List.length = [32000, 18000] := by
  have h0 : (0 : Nat) < c.length := by omega
  rw [sliceFrom, dif_pos h0]
  have h1 : min (0 + MAX_CHUNK_SIZE) c.length = 32000 := by
    simp only [MAX_CHUNK_SIZE]
    omega
  rw [h1]
  have h2 : (32000 : Nat) < c.length := by omega
  rw [sliceFrom, dif_pos h2]
  have h3 : min (32000 + MAX_CHUNK_SIZE) c.length = 50000 := by
    simp only [MAX_CHUNK_SIZE]
    omega
  rw [h3]
  have h4 : ¬ (50000 : Nat) < c.length := by omega
  rw [sliceFrom, dif_neg h4]
  simp [h]

/-- The chat retry loop, written out by cases on the outcomes of the at most
three calls it can make. -/
theorem sendChatWithRetry_eq (sendOk : Nat → Bool) :
    sendChatWithRetry sendOk =
      if sendOk 0 then ⟨1, [], true, 0, false⟩
      else if sendOk 1 then ⟨2, [1000], true, 1, false⟩
      else if sendOk 2 then ⟨3, [1000, 2000], true, 2, false⟩
      else ⟨3, [1000, 2000], false, 4, true⟩ := by
  cases h0 : sendOk 0 <;> cases h1 : sendOk 1 <;> cases h2 : sendOk 2 <;>
    simp [sendChatWithRetry, chatSendLoop, h0, h1, h2]

/-- When no outcome is a `ChannelNotBroadcasting` error, the metadata retry loop
behaves exactly like the chat retry loop driven by the success flags. -/
theorem putMetadataWithRetry_no_cnb (outcome : Nat → MetaOutcome)
    (hcnb : ∀ i, (outcome i).cnb = false) :
    putMetadataWithRetry outcome = sendChatWithRetry (fun i => (outcome i).isOk) := by
  have c0 := hcnb 0
  have c1 := hcnb 1
  have c2 := hcnb 2
  rcases h0 : outcome 0 with _ | msg0 <;> rcases h1 : outcome 1 with _ | msg1 <;>
      rcases h2 : outcome 2 with _ | msg2 <;>
    rw [h0] at c0 <;> rw [h1] at c1 <;> rw [h2] at c2 <;>
    simp_all [putMetadataWithRetry, putMetadataLoop, sendChatWithRetry, chatSendLoop,
      MetaOutcome.cnb, MetaOutcome.isOk]

/-- The bounded-retry properties of the chat loop, for an arbitrary sequence of
call outcomes. -/
theorem chatRetryProps (f : Nat → Bool) :
    (sendChatWithRetry f).calls ≤ 3 ∧
    (sendChatWithRetry f).waits = [1000, 2000].take ((sendChatWithRetry f).calls - 1) ∧
    (f 0 = true → sendChatWithRetry f = ⟨1, [], true, 0, false⟩) ∧
    (f 0 = false → f 1 = true → sendChatWithRetry f = ⟨2, [1000], true, 1, false⟩) ∧
    (f 0 = false → f 1 = false → f 2 = true →
      sendChatWithRetry f = ⟨3, [1000, 2000], true, 2, false⟩) ∧
    (f 0 = false → f 1 = false → f 2 = false →
      sendChatWithRetry f = ⟨3, [1000, 2000], false, 4, true⟩) := by
  rw [sendChatWithRetry_eq]
  cases h0 : f 0 <;> cases h1 : f 1 <;> cases h2 : f 2 <;> simp [h0, h1, h2]

/-- Filtering by a predicate the element satisfies does not change its count. -/
theorem count_filter_of_pos (l : List String) (a : String) (p : String → Bool)
    (h : p a = true) : (l.filter p).count a = l.count a := by
  induction l with
  | nil => rfl
  | cons x xs ih =>
      by_cases hxa : x = a
      · subst hxa
        rw [List.filter_cons, h]
        simp [List.count_cons, ih]
      · rw [List.filter_cons]
        cases hx : p x <;> simp [List.count_cons, ih, hxa]

/-! ## Claims -/

/-- C4: for every sequence of source reads, the chunk generator yields pieces
whose concatenation equals the concatenation of the reads in original order, and
every piece has length in (0, MAX_CHUNK_SIZE]; a single 50,000-byte read yields
exactly two chunks of 32,000 then 18,000 bytes. -/
theorem c4_chunker_correct (reads : List (List Nat)) (c : List Nat)
    (h : c.length = 50000) :
    (audioStreamGenerator reads).flatten = reads.flatten ∧
    (∀ piece ∈ audioStreamGenerator reads, 0 < piece.length ∧ piece.length ≤ MAX_CHUNK_SIZE) ∧
    (audioStreamGenerator [c]).map List.length = [32000, 18000] := by
  refine ⟨?_, ?_, ?_⟩
  · induction reads with
    | nil => rfl
    | cons r rs ih =>
        rw [audioStreamGenerator, List.flatMap_cons, List.flatten_append,
          sliceFrom_flatten, List.drop_zero, List.flatten_cons]
        rw [audioStreamGenerator] at ih
        rw [ih]
  · intro piece hp
    rcases List.mem_flatMap.mp hp with ⟨r, hr, hpr⟩
    exact sliceFrom_length_bounds r 0 piece hpr
  · rw [audioStreamGenerator, List.flatMap_cons, List.flatMap_nil, List.append_nil]
    exact sliceFrom_lengths_50000 c h

/-- Witness for C4 at a concrete 50,000-byte read. -/
theorem c4_chunker_correct_witness :
    (List.replicate 50000 0).length = 50000 ∧
    (audioStreamGenerator [List.replicate 50000 0]).map List.length = [32000, 18000] :=
  ⟨by rw [List.length_replicate],
    (c4_chunker_correct [] (List.replicate 50000 0) (by rw [List.length_replicate])).2.2⟩

/-- C3: for the live-update push and the metadata-attach retry loops (the latter
when no outcome is the ChannelNotBroadcasting error): at most 3 calls are made;
the wait after failed attempt k (1-based) is 500 * 2 ^ k ms, so the delays are
1000 ms then 2000 ms; the first success terminates the loop with no further
calls; after 3 failures the action is abandoned with `Giving up` logged, the
loop returning normally so no error reaches the caller. -/
theorem c3_retry_policy (sendOk : Nat → Bool) (outcome : Nat → MetaOutcome)
    (hcnb : ∀ i, (outcome i).cnb = false) :
    ((sendChatWithRetry sendOk).calls ≤ 3 ∧
      (sendChatWithRetry sendOk).waits = [1000, 2000].take ((sendChatWithRetry sendOk).calls - 1) ∧
      (sendOk 0 = true → sendChatWithRetry sendOk = ⟨1, [], true, 0, false⟩) ∧
      (sendOk 0 = false → sendOk 1 = true → sendChatWithRetry sendOk = ⟨2, [1000], true, 1, false⟩) ∧
      (sendOk 0 = false → sendOk 1 = false → sendOk 2 = true →
        sendChatWithRetry sendOk = ⟨3, [1000, 2000], true, 2, false⟩) ∧
      (sendOk 0 = false → sendOk 1 = false → sendOk 2 = false →
        sendChatWithRetry sendOk = ⟨3, [1000, 2000], false, 4, true⟩)) ∧
    ((putMetadataWithRetry outcome).calls ≤ 3 ∧
      (putMetadataWithRetry outcome).waits = [1000, 2000].take ((putMetadataWithRetry outcome).calls - 1) ∧
      ((outcome 0).isOk = true → putMetadataWithRetry outcome = ⟨1, [], true, 0, false⟩) ∧
      ((outcome 0).isOk = false → (outcome 1).isOk = true →
        putMetadataWithRetry outcome = ⟨2, [1000], true, 1, false⟩) ∧
      ((outcome 0).isOk = false → (outcome 1).isOk = false → (outcome 2).isOk = true →
        putMetadataWithRetry outcome = ⟨3, [1000, 2000], true, 2, false⟩) ∧
      ((outcome 0).isOk = false → (outcome 1).isOk = false → (outcome 2).isOk = false →
        putMetadataWithRetry outcome = ⟨3, [1000, 2000], false, 4, true⟩)) := by
  constructor
  · exact chatRetryProps sendOk
  · rw [putMetadataWithRetry_no_cnb outcome hcnb]
    exact chatRetryProps (fun i => (outcome i).isOk)

/-- Witness for C3: a publish that fails on calls 1 and 2 and succeeds on
call 3 makes exactly 3 calls with waits of 1000 ms and 2000 ms, and delivers. -/
theorem c3_retry_policy_witness :
    MetaOutcome.ok.cnb = false ∧
    sendChatWithRetry (fun i => i == 2) = ⟨3, [1000, 2000], true, 2, false⟩ :=
  ⟨rfl,
    (c3_retry_policy (fun i => i == 2) (fun _ => MetaOutcome.ok)
      (fun _ => rfl)).1.2.2.2.2.1 rfl rfl rfl⟩

/-- C7: when an `ivsClient.send` call throws an error recognised as
ChannelNotBroadcasting, `putTranscriptInMetadata` gives up immediately: the call
on which it happened is the last (no retry is consumed, no further call), no
wait is inserted after it, and it adds no error log. -/
theorem c7_cnb_gives_up_silently (outcome : Nat → MetaOutcome) (m0 m1 m2 : String) :
    (outcome 0 = MetaOutcome.err m0 → isChannelNotBroadcastingError m0 = true →
      putMetadataWithRetry outcome = ⟨1, [], false, 0, false⟩) ∧
    (outcome 0 = MetaOutcome.err m0 → isChannelNotBroadcastingError m0 = false →
      outcome 1 = MetaOutcome.err m1 → isChannelNotBroadcastingError m1 = true →
      putMetadataWithRetry outcome = ⟨2, [1000], false, 1, false⟩) ∧
    (outcome 0 = MetaOutcome.err m0 → isChannelNotBroadcastingError m0 = false →
      outcome 1 = MetaOutcome.err m1 → isChannelNotBroadcastingError m1 = false →
      outcome 2 = MetaOutcome.err m2 → isChannelNotBroadcastingError m2 = true →
      putMetadataWithRetry outcome = ⟨3, [1000, 2000], false, 2, false⟩) := by
  refine ⟨?_, ?_, ?_⟩
  · intro h0 c0
    simp [putMetadataWithRetry, putMetadataLoop, h0, c0]
  · intro h0 c0 h1 c1
    simp [putMetadataWithRetry, putMetadataLoop, h0, c0, h1, c1]
  · intro h0 c0 h1 c1 h2 c2
    simp [putMetadataWithRetry, putMetadataLoop, h0, c0, h1, c1, h2, c2]

/-- Witness for C7: a ChannelNotBroadcasting error on the first call ends the
loop after exactly one call, with no wait and no error log. -/
theorem c7_cnb_gives_up_silently_witness :
    isChannelNotBroadcastingError "ChannelNotBroadcasting" = true ∧
    putMetadataWithRetry (fun _ => MetaOutcome.err "ChannelNotBroadcasting") =
      ⟨1, [], false, 0, false⟩ :=
  ⟨by decide,
    (c7_cnb_gives_up_silently (fun _ => MetaOutcome.err "ChannelNotBroadcasting")
      "ChannelNotBroadcasting" "" "").1 rfl (by decide)⟩

/-- C1 counterexample: the main loop classifies a result with no `ResultId`
(the guard checks only results, alternatives and text), and for such a result
with `isPartial = false` `sendTranscriptEvent` returns before attempting
anything: the live-update push is not attempted, and metadata-attach is not
attempted even though `isPartial = false`, refuting the claim as stated for
"every classified recognition result". -/
theorem c1_as_stated_fails :
    classify ⟨some [⟨none, false, none, none, some [some "hello"]⟩]⟩ =
      some (⟨none, false, none, none, some [some "hello"]⟩, "hello") ∧
    (⟨none, false, none, none, some [some "hello"]⟩ : TResult).isPartial = false ∧
    ¬ ((sendTranscriptEvent (fun _ => true) (fun _ => MetaOutcome.ok) "hello" "en-IE"
          none "ls" 0 ⟨none, false, none, none, some [some "hello"]⟩).chatTrace.isSome = true ∧
        ((sendTranscriptEvent (fun _ => true) (fun _ => MetaOutcome.ok) "hello" "en-IE"
          none "ls" 0 ⟨none, false, none, none, some [some "hello"]⟩).metadataTrace.isSome = true ↔
          (⟨none, false, none, none, some [some "hello"]⟩ : TResult).isPartial = false)) := by
  refine ⟨rfl, rfl, ?_⟩
  intro h
  simpa [sendTranscriptEvent, resultIdPresent] using h.1

/-- C1 (amended): for every classified recognition result that carries a result
identifier, the live-update push is attempted regardless of the partiality flag,
while metadata-attach and persistence are attempted if and only if the result
has `isPartial = false`; a partial result never triggers either. -/
theorem c1_delivery_actions (chatOk : Nat → Bool) (metaOutcome : Nat → MetaOutcome)
    (transcript languageCode : String) (domain : Option String) (livestreamID : String)
    (taskStartTime : Nat) (r : TResult) (h : resultIdPresent r = true) :
    (sendTranscriptEvent chatOk metaOutcome transcript languageCode domain livestreamID
        taskStartTime r).chatTrace.isSome = true ∧
    ((sendTranscriptEvent chatOk metaOutcome transcript languageCode domain livestreamID
        taskStartTime r).metadataTrace.isSome = true ↔ r.isPartial = false) ∧
    ((sendTranscriptEvent chatOk metaOutcome transcript languageCode domain livestreamID
        taskStartTime r).persistInvoked = true ↔ r.isPartial = false) := by
  cases hp : r.isPartial <;> simp [sendTranscriptEvent, h, hp]

/-- Witness for C1 (amended) at a concrete finalized result with a ResultId. -/
theorem c1_delivery_actions_witness :
    resultIdPresent ⟨some "r1", false, none, none, some [some "hello"]⟩ = true ∧
    (sendTranscriptEvent (fun _ => true) (fun _ => MetaOutcome.ok) "hello" "en-IE"
        none "ls" 0 ⟨some "r1", false, none, none, some [some "hello"]⟩).chatTrace.isSome = true ∧
    ((sendTranscriptEvent (fun _ => true) (fun _ => MetaOutcome.ok) "hello" "en-IE"
        none "ls" 0 ⟨some "r1", false, none, none, some [some "hello"]⟩).metadataTrace.isSome = true ↔
      (⟨some "r1", false, none, none, some [some "hello"]⟩ : TResult).isPartial = false) ∧
    ((sendTranscriptEvent (fun _ => true) (fun _ => MetaOutcome.ok) "hello" "en-IE"
        none "ls" 0 ⟨some "r1", false, none, none, some [some "hello"]⟩).persistInvoked = true ↔
      (⟨some "r1", false, none, none, some [some "hello"]⟩ : TResult).isPartial = false) :=
  ⟨by decide,
    c1_delivery_actions (fun _ => true) (fun _ => MetaOutcome.ok) "hello" "en-IE"
      none "ls" 0 ⟨some "r1", false, none, none, some [some "hello"]⟩ (by decide)⟩

/-- C2 counterexample: in the env-driven variant (`src/src/index.ts`), a
finalized result with no `ResultId` is logged and skipped by
`sendTranscriptEvent` (no live-update push), yet the main loop still attempts
persistence for it, because `saveTranscriptToDB` — a real axios POST in this
variant — is invoked outside the `ResultId` guard, gated only on
`!firstResult.IsPartial`. This refutes "no delivery action is attempted at
all" as stated. -/
theorem c2_as_stated_fails :
    (⟨none, false, none, none, none⟩ : TResult).resultId = none ∧
    (envMainDelivery (fun _ => true) ⟨none, false, none, none, none⟩).loggedMissingResultId =
      true ∧
    (envMainDelivery (fun _ => true) ⟨none, false, none, none, none⟩).chatTrace = none ∧
    (envMainDelivery (fun _ => true) ⟨none, false, none, none, none⟩).persistAttempted = true :=
  ⟨rfl, rfl, rfl, rfl⟩

/-- C2 (amended): for every recognition result with no `ResultId`, the
live-update push and metadata-attach are never attempted and the missing
identifier is logged; in the queue-driven worker no delivery action at all is
attempted, while in the env-driven variant persistence is still attempted
exactly when the result is finalized, since its `saveTranscriptToDB` call sits
outside the `ResultId` guard. -/
theorem c2_missing_result_id_delivery (chatOk : Nat → Bool) (metaOutcome : Nat → MetaOutcome)
    (transcript languageCode : String) (domain : Option String) (livestreamID : String)
    (taskStartTime : Nat) (r : TResult) (h : r.resultId = none) :
    (sendTranscriptEvent chatOk metaOutcome transcript languageCode domain livestreamID
        taskStartTime r =
      { loggedMissingResultId := true
        metadataTrace := none
        persistInvoked := false
        persistNetworkCalls := 0
        chatTrace := none }) ∧
    (envMainDelivery chatOk r).loggedMissingResultId = true ∧
    (envMainDelivery chatOk r).chatTrace = none ∧
    ((envMainDelivery chatOk r).persistAttempted = true ↔ r.isPartial = false) := by
  have hp : resultIdPresent r = false := by
    rw [resultIdPresent, h]
  refine ⟨?_, ?_, ?_, ?_⟩
  · simp [sendTranscriptEvent, hp]
  · simp [envMainDelivery, sendTranscriptEventEnv, hp]
  · simp [envMainDelivery, sendTranscriptEventEnv, hp]
  · cases hpart : r.isPartial <;> simp [envMainDelivery, hpart]

/-- Witness for C2 (amended) at a concrete partial result with no ResultId. -/
theorem c2_missing_result_id_delivery_witness :
    (⟨none, true, none, none, none⟩ : TResult).resultId = none ∧
    (sendTranscriptEvent (fun _ => true) (fun _ => MetaOutcome.ok) "hi" "en-IE" none "ls" 0
        ⟨none, true, none, none, none⟩ =
      { loggedMissingResultId := true
        metadataTrace := none
        persistInvoked := false
        persistNetworkCalls := 0
        chatTrace := none }) ∧
    (envMainDelivery (fun _ => true) ⟨none, true, none, none, none⟩).loggedMissingResultId =
      true ∧
    (envMainDelivery (fun _ => true) ⟨none, true, none, none, none⟩).chatTrace = none ∧
    ((envMainDelivery (fun _ => true) ⟨none, true, none, none, none⟩).persistAttempted = true ↔
      (⟨none, true, none, none, none⟩ : TResult).isPartial = false) :=
  ⟨rfl,
    c2_missing_result_id_delivery (fun _ => true) (fun _ => MetaOutcome.ok) "hi" "en-IE"
      none "ls" 0 ⟨none, true, none, none, none⟩ rfl⟩

/-- C10: in the queue-driven worker, `saveTranscriptToDB` performs no network
call for any input, and even a finalized result with a ResultId — for which the
persistence call is made — causes zero network calls to the storage endpoint. -/
theorem c10_persistence_is_stubbed (transcript languageCode : String) (domain : Option String)
    (livestreamID : String) (startTime endTime : Option Nat) (taskStartTime : Nat)
    (chatOk : Nat → Bool) (metaOutcome : Nat → MetaOutcome) (r : TResult)
    (hid : resultIdPresent r = true) (hfinal : r.isPartial = false) :
    (saveTranscriptToDB transcript languageCode domain livestreamID startTime endTime
        taskStartTime).networkCalls = 0 ∧
    (sendTranscriptEvent chatOk metaOutcome transcript languageCode domain livestreamID
        taskStartTime r).persistInvoked = true ∧
    (sendTranscriptEvent chatOk metaOutcome transcript languageCode domain livestreamID
        taskStartTime r).persistNetworkCalls = 0 := by
  refine ⟨rfl, ?_, ?_⟩ <;> simp [sendTranscriptEvent, hid, hfinal, saveTranscriptToDB]

/-- Witness for C10 at a concrete finalized result. -/
theorem c10_persistence_is_stubbed_witness :
    resultIdPresent ⟨some "r1", false, none, none, none⟩ = true ∧
    (⟨some "r1", false, none, none, none⟩ : TResult).isPartial = false ∧
    (saveTranscriptToDB "hi" "en-IE" none "ls" none none 0).networkCalls = 0 ∧
    (sendTranscriptEvent (fun _ => true) (fun _ => MetaOutcome.ok) "hi" "en-IE" none "ls" 0
        ⟨some "r1", false, none, none, none⟩).persistInvoked = true ∧
    (sendTranscriptEvent (fun _ => true) (fun _ => MetaOutcome.ok) "hi" "en-IE" none "ls" 0
        ⟨some "r1", false, none, none, none⟩).persistNetworkCalls = 0 :=
  ⟨by decide, rfl,
    c10_persistence_is_stubbed "hi" "en-IE" none "ls" none none 0 (fun _ => true)
      (fun _ => MetaOutcome.ok) ⟨some "r1", false, none, none, none⟩ (by decide) rfl⟩

/-- C5: a target language equal to the source language is delivered with the
original text (via the direct source-language publish) and no
`TranslateTextCommand` is ever sent for it: identity passthrough, not a skip. -/
theorem c5_same_language_passthrough (outcome : String → TranslateResult)
    (fromLang : String) (toLangs : List String) (transcript : String) (X : String)
    (hmem : X ∈ toLangs) (heq : X = fromLang) :
    (X, transcript) ∈ (mainFanout outcome fromLang toLangs transcript).deliveries ∧
    X ∉ (mainFanout outcome fromLang toLangs transcript).translateCalls := by
  subst heq
  constructor
  · simp [mainFanout]
  · intro hx
    simp only [mainFanout] at hx
    split at hx
    · rcases List.mem_filter.mp hx with ⟨-, hne⟩
      simp at hne
    · simp at hx

/-- Witness for C5: source and sole target both `en-IE`. -/
theorem c5_same_language_passthrough_witness :
    "en-IE" ∈ ["en-IE"] ∧
    ("en-IE", "hello") ∈
      (mainFanout (fun _ => TranslateResult.err) "en-IE" ["en-IE"] "hello").deliveries ∧
    "en-IE" ∉ (mainFanout (fun _ => TranslateResult.err) "en-IE" ["en-IE"] "hello").translateCalls :=
  ⟨by decide,
    c5_same_language_passthrough (fun _ => TranslateResult.err) "en-IE" ["en-IE"] "hello"
      "en-IE" (by decide) rfl⟩

/-- C6: for a target language distinct from the source language (listed once in
the configuration), exactly one `TranslateTextCommand` is sent — never a retry —
and when that call throws, the failure is logged and the untranslated source
text is still delivered for that target. -/
theorem c6_translate_once_with_fallback (outcome : String → TranslateResult)
    (fromLang : String) (toLangs : List String) (transcript : String) (X : String)
    (hmem : X ∈ toLangs) (hne : X ≠ fromLang) (hcount : toLangs.count X = 1) :
    (mainFanout outcome fromLang toLangs transcript).translateCalls.count X = 1 ∧
    (outcome X = TranslateResult.err →
      (X, transcript) ∈ (mainFanout outcome fromLang toLangs transcript).deliveries ∧
      X ∈ (mainFanout outcome fromLang toLangs transcript).translationErrorsLogged) := by
  have hpred : (fun t => fromLang != t) X = true := by
    simp only [bne_iff_ne]
    exact Ne.symm hne
  have hneeds : toLangs.any (fun lang => lang != fromLang) = true :=
    List.any_eq_true.mpr ⟨X, hmem, by simpa [bne_iff_ne] using hne⟩
  have hXt : X ∈ toLangs.filter (fun t => fromLang != t) :=
    List.mem_filter.mpr ⟨hmem, hpred⟩
  refine ⟨?_, ?_⟩
  · simp only [mainFanout, hneeds, if_true]
    rw [count_filter_of_pos toLangs X (fun t => fromLang != t) hpred, hcount]
  · intro herr
    constructor
    · simp only [mainFanout, hneeds, if_true]
      apply List.mem_cons_of_mem
      exact List.mem_map.mpr ⟨X, hXt, by rw [herr]; rfl⟩
    · simp only [mainFanout, hneeds, if_true]
      exact List.mem_filter.mpr ⟨hXt, by rw [herr]; rfl⟩

/-- Witness for C6: target `fr-FR`, source `en-IE`, translate call throws. -/
theorem c6_translate_once_with_fallback_witness :
    "fr-FR" ∈ ["fr-FR"] ∧
    (["fr-FR"] : List String).count "fr-FR" = 1 ∧
    (mainFanout (fun _ => TranslateResult.err) "en-IE" ["fr-FR"] "hello").translateCalls.count
      "fr-FR" = 1 ∧
    ("fr-FR", "hello") ∈
      (mainFanout (fun _ => TranslateResult.err) "en-IE" ["fr-FR"] "hello").deliveries ∧
    "fr-FR" ∈
      (mainFanout (fun _ => TranslateResult.err) "en-IE" ["fr-FR"] "hello").translationErrorsLogged := by
  have h := c6_translate_once_with_fallback (fun _ => TranslateResult.err) "en-IE" ["fr-FR"]
    "hello" "fr-FR" (by decide) (by decide) (by decide)
  exact ⟨by decide, by decide, h.1, (h.2 rfl).1, (h.2 rfl).2⟩

/-- C8: a recognition event with no results list, an empty results list, a first
result with missing or empty alternatives, or a first alternative with missing
or empty text, is classified to nothing, and an unclassified event triggers no
delivery, no translation call and no log. -/
theorem c8_classifier_drops_unusable (outcome : String → TranslateResult)
    (clean : String → String) (fromLang : String) (toLangs : List String)
    (event : TEvent) (r : TResult) (rest : List TResult) (altsRest : List (Option String)) :
    (event.results = none → classify event = none) ∧
    (event.results = some [] → classify event = none) ∧
    (event.results = some (r :: rest) → r.alternatives = none → classify event = none) ∧
    (event.results = some (r :: rest) → r.alternatives = some [] → classify event = none) ∧
    (event.results = some (r :: rest) → r.alternatives = some (none :: altsRest) →
      classify event = none) ∧
    (event.results = some (r :: rest) → r.alternatives = some (some "" :: altsRest) →
      classify event = none) ∧
    (classify event = none →
      processEvent outcome clean fromLang toLangs event =
        { deliveries := [], translateCalls := [], translationErrorsLogged := [] }) := by
  refine ⟨?_, ?_, ?_, ?_, ?_, ?_, ?_⟩
  · intro h
    simp [classify, h]
  · intro h
    simp [classify, h]
  · intro h ha
    simp [classify, h, ha]
  · intro h ha
    simp [classify, h, ha]
  · intro h ha
    simp [classify, h, ha]
  · intro h ha
    simp [classify, h, ha]
  · intro h
    simp [processEvent, h]

/-- Witness for C8 at a concrete event with no results list. -/
theorem c8_classifier_drops_unusable_witness :
    (⟨none⟩ : TEvent).results = none ∧
    classify ⟨none⟩ = none ∧
    processEvent (fun _ => TranslateResult.err) (fun s => s) "en-IE" [] ⟨none⟩ =
      { deliveries := [], translateCalls := [], translationErrorsLogged := [] } := by
  have h := c8_classifier_drops_unusable (fun _ => TranslateResult.err) (fun s => s) "en-IE" []
    ⟨none⟩ ⟨none, false, none, none, none⟩ [] []
  exact ⟨rfl, h.1 rfl, h.2.2.2.2.2.2 (h.1 rfl)⟩

/-- C9: in the queue-driven worker, once a received message's body has parsed
(so a run starts and the receipt handle is recorded), the message is deleted in
the `finally` block however the run ends — normal end of stream, missing job
data, any client construction failure, or a critical error. -/
theorem c9_queue_message_always_deleted (receiptHandle : String) (exitKind : BodyExit) :
    handleQueueMessage true (some receiptHandle) exitKind =
      { runStarted := true, deleted := true } := by
  cases exitKind <;> rfl

end Transcriber
